import Mathlib

/-!
Verification of the regex-AST builder of the rnginline repository
(src/rnginline/regexbuilder.py) and its RFC 3986 grammar library
(src/rnginline/uri_regex.py).

Strings are modelled as lists of Unicode code points (`List Int`), because
the Python code manipulates code points as (possibly negative) ints and can
produce characters, such as lone surrogates, that Lean `Char` cannot hold.
-/

/-- Code points of a Lean string literal, as a `List Int`. -/
def codes (s : String) : List Int :=
  s.data.map (fun c => (c.toNat : Int))

/-- Python `chr`: succeeds exactly on code points 0 ≤ cp ≤ 0x10FFFF
(raises `ValueError` otherwise, modelled as `none`). -/
def pychr (cp : Int) : Option Int :=
  if 0 ≤ cp ∧ cp ≤ 0x10FFFF then some cp else none

/-- The characters `re.escape` prefixes with a backslash
(CPython `re._special_chars_map`): `()[]{}?*+-|^$\.&~# \t\n\r\v\f`. -/
def reSpecial (cp : Int) : Bool :=
  cp ∈ ([40, 41, 91, 93, 123, 125, 63, 42, 43, 45, 124, 94, 36, 92,
         46, 38, 126, 35, 32, 9, 10, 13, 11, 12] : List Int)

/-- Python `re.escape` applied to a single character. -/
def reEscapeChar (cp : Int) : List Int :=
  if reSpecial cp then [92, cp] else [cp]

/-- Python `Literal._reserved_chars`: the set `\.^$*+?{}[]|()`. -/
def literalReserved (cp : Int) : Bool :=
  cp ∈ ([92, 46, 94, 36, 42, 43, 63, 123, 125, 91, 93, 124, 40, 41] : List Int)

/-- Python `SetRange`: one contiguous code-point range (`start`, `end`).
Python's `end` attribute is named `stop` here (`end` is a Lean keyword). -/
structure SetRange where
  start : Int
  stop : Int
deriving DecidableEq, Repr

/-- The Node AST of regexbuilder.py.  One constructor per concrete
`Regex` subclass: `Literal`, `Sequence`, `Choice`, `Capture`, `Set`,
`Repeat` (with its `ZeroOrMore`/`OneOrMore`/`Optional` specialisations
being plain `Repeat`s with fixed bounds) and `StandAlone`
(`Start`/`End`/`Whitespace`, identified by their rendered text). -/
inductive Node where
  | literal (text : List Int)
  | sequence (expressions : List Node)
  | choice (expressions : List Node)
  | capture (expressions : List Node) (name : Option (List Int))
  | set (ranges : List SetRange)
  | «repeat» (expression : Node) (min max : Option Int)
  | standAlone (representation : List Int)
deriving Repr

/-- Python `SetRange.is_single`. -/
def SetRange.is_single (r : SetRange) : Bool := r.start == r.stop

/-- Python `SetRange.needs_escape(char, is_first)`: `(is_first and char == "^")
or char in "\]-"`. -/
def SetRange.needs_escape (cp : Int) (is_first : Bool) : Bool :=
  (is_first && cp == 94) || cp ∈ ([92, 93, 45] : List Int)

/-- Python `SetRange.render_char`: `chr` the code point, escaping when needed.
`none` models the `ValueError` that `chr` raises out of range. -/
def SetRange.render_char (cp : Int) (is_first : Bool) : Option (List Int) := do
  let c ← pychr cp
  if SetRange.needs_escape c is_first then
    return reEscapeChar c
  else
    return [c]

/-- Python `SetRange.render(is_first)`: a single char, or `start-end`. -/
def SetRange.render (r : SetRange) (is_first : Bool) : Option (List Int) := do
  if r.is_single then
    SetRange.render_char r.start is_first
  else
    return (← SetRange.render_char r.start is_first)
      ++ codes "-" ++ (← SetRange.render_char r.stop false)

/-- Python `SetRange.intersects`. -/
def SetRange.intersects (r other : SetRange) : Bool :=
  let ends_before := r.stop < other.start
  let starts_after := r.start > other.stop
  (!ends_before) && (!starts_after)

mutual

/-- Python `is_singular`: `Literal` of length 1; `Sequence`/`Choice` with exactly
one singular child (`BaseSequence.is_singular`); `Capture`, `Set` and
`StandAlone` always; everything else (`Repeat`) never. -/
def Node.is_singular : Node → Bool
  | .literal text => text.length == 1
  | .sequence es => Node.seq_is_singular es
  | .choice es => Node.seq_is_singular es
  | .capture _ _ => true
  | .set _ => true
  | .«repeat» _ _ _ => false
  | .standAlone _ => true
termination_by structural e => e

/-- Python `BaseSequence.is_singular`: `len(expressions) == 1 and
expressions[0].is_singular()`. -/
def Node.seq_is_singular : List Node → Bool
  | [e] => e.is_singular
  | _ => false
termination_by structural es => es

end

/-- Python `is_expansive`: `False` everywhere except `Choice.is_expansive`,
which returns `not self.is_singular()`. -/
def Node.is_expansive : Node → Bool
  | .choice es => !(Node.choice es).is_singular
  | _ => false

/-- Decimal digits of a `Nat`, as code points. -/
def natDecimal (n : Nat) : List Int :=
  (Nat.toDigits 10 n).map (fun c => (c.toNat : Int))

/-- Python `"{0:d}".format(i)` for an int `i`. -/
def intDecimal (i : Int) : List Int :=
  match i with
  | .ofNat n => natDecimal n
  | .negSucc n => 45 :: natDecimal (n + 1)

/-- Python `Repeat.operator`: the postfix operator chosen from (min, max) by the
if/elif chain of regexbuilder.py lines 284-301, in the same order. -/
def repOperator (min max : Option Int) : List Int :=
  if min = none ∧ max = none then codes "*"
  else if min = some 1 ∧ max = none then codes "+"
  else if min = some 0 ∧ max = some 1 then codes "?"
  else if min = max then
    match min with
    | some n => codes "\x7b" ++ intDecimal n ++ codes "\x7d"
    | none => []   -- unreachable: min = max = none was taken by the first branch
  else if min = none then
    match max with
    | some m => codes "\x7b," ++ intDecimal m ++ codes "\x7d"
    | none => []   -- unreachable: max = none here forces the min = max branch
  else if max = none then
    match min with
    | some n => codes "\x7b" ++ intDecimal n ++ codes ",\x7d"
    | none => []   -- unreachable: min = none was taken by the previous branch
  else
    match min, max with
    | some n, some m =>
        codes "\x7b" ++ intDecimal n ++ codes "," ++ intDecimal m ++ codes "\x7d"
    | _, _ => []   -- unreachable: earlier branches took every none case

/-- Python `str.join`. -/
def joinCodes (sep : List Int) : List (List Int) → List Int
  | [] => []
  | [s] => s
  | s :: rest => s ++ sep ++ joinCodes sep rest

/-- Python `Literal.render`: escape every reserved character, concatenate. -/
def literalRender (text : List Int) : List Int :=
  text.flatMap (fun c => if literalReserved c then reEscapeChar c else [c])

/-- Python `Set.render`: each range rendered with `is_first = (pos == 0)`
(via `enumerate`), concatenated. -/
def renderRanges (pos : Nat) : List SetRange → Option (List Int)
  | [] => some []
  | r :: rs => do
      return (← r.render (pos == 0)) ++ (← renderRanges (pos + 1) rs)

/-- The wrapping step of `Regex.render_singular`: leave a rendered
expression alone when it `is_singular()`, otherwise wrap it in an
anonymous group `(?:...)`. -/
def wrapSingular (is_sing : Bool) (rendered : List Int) : List Int :=
  if is_sing then rendered else codes "(?:" ++ rendered ++ codes ")"

mutual

/-- Python `Regex.render` for each variant.  `none` propagates the `ValueError`
that `chr` can raise inside `SetRange.render_char`; every other step is
total.  The `Repeat` case is `UnaryOperator.render`: the subexpression
rendered via `render_singular` (inlined here as `wrapSingular`), then the
postfix operator. -/
def Node.render : Node → Option (List Int)
  | .literal text => some (literalRender text)
  | .sequence es => do return joinCodes (codes "") (← Node.render_each es)
  | .choice es => do return joinCodes (codes "|") (← Node.render_each es)
  | .capture es name => do
      let body := joinCodes (codes "") (← Node.render_each es)
      match name with
      | some n => return codes "(?P<" ++ n ++ codes ">" ++ body ++ codes ")"
      | none => return codes "(" ++ body ++ codes ")"
  | .set ranges => do return codes "[" ++ (← renderRanges 0 ranges) ++ codes "]"
  | .«repeat» e min max => do
      return wrapSingular e.is_singular (← e.render) ++ repOperator min max
  | .standAlone r => some r
termination_by structural e => e

/-- Python `BaseSequence.render`'s generator: each expression rendered via
`render_non_expansive` (inlined: `render_singular` when the expression
`is_expansive()`, plain `render` otherwise). -/
def Node.render_each : List Node → Option (List (List Int))
  | [] => some []
  | e :: es => do
      let rendered ← e.render
      let rne := if e.is_expansive then wrapSingular e.is_singular rendered
                 else rendered
      return rne :: (← Node.render_each es)
termination_by structural es => es

end

/-- Python `Regex.render_singular`: `render()`, wrapped in `(?:...)` unless
`is_singular()`. -/
def Node.render_singular (e : Node) : Option (List Int) := do
  return wrapSingular e.is_singular (← e.render)

/-- Python `Regex.render_non_expansive`: `render_singular()` if `is_expansive()`,
else `render()`. -/
def Node.render_non_expansive (e : Node) : Option (List Int) :=
  if e.is_expansive then e.render_singular else e.render

/-! ### Validating constructors

Each Python `__init__` that can raise is modelled as a function into
`Except String _`; `Except.error` models the raised
`ValueError`/`AssertionError`. -/

/-- Python `SetRange.__init__`: raises `ValueError` when `end < start`. -/
def SetRange.init (start stop : Int) : Except String SetRange :=
  if stop < start then
    .error "end < start"
  else
    .ok ⟨start, stop⟩

/-- The argument union accepted by `Set.__init__` / `SetRange.create`:
an already-built `SetRange`, a single code point (covering both the `int`
and the one-character `str` form, which `get_codepoint` maps to the same
code point), a `(start, end)` pair of code points, or an already-built
`Set` (represented by its ranges). -/
inductive SetItem where
  | range (r : SetRange)
  | single (cp : Int)
  | pair (start stop : Int)
  | set (ranges : List SetRange)
deriving DecidableEq, Repr

/-- Python `SetRange.create`. -/
def SetRange.create : SetItem → Except String SetRange
  | .range r => .ok r
  | .single cp => SetRange.init cp cp
  | .pair start stop => SetRange.init start stop
  | .set _ => .error "cannot create a SetItem from this item"
  -- `Set` items never reach `create`: `Set.__init__` filters them out.

/-- Python `Set.__init__`: raises on zero items; otherwise the ranges created
from the non-`Set` items in order, followed by the ranges spliced from
the `Set` items in order. -/
def Set.init (items : List SetItem) : Except String (List SetRange) := do
  if items.length = 0 then
    throw "empty Set()"
  let fromOther ← (items.filter (fun i => !isSet i)).mapM SetRange.create
  let fromSets := (items.filterMap itemRanges).flatten
  return fromOther ++ fromSets
where
  isSet : SetItem → Bool
    | .set _ => true
    | _ => false
  itemRanges : SetItem → Option (List SetRange)
    | .set rs => some rs
    | _ => none

/-- Python `Repeat.__init__` (and `UnaryOperator.__init__`): the `count`
shorthand, then the three asserts on the bounds, in source order.  A
failing `assert` raises `AssertionError`, modelled as `Except.error`.
Returns the constructed `Repeat` node. -/
def Repeat.init (e : Node) (min max count : Option Int) :
    Except String Node := do
  let (min, max) ←
    match count with
    | some c =>
        if min = none ∧ max = none then pure (some c, some c)
        else throw "assert min is None and max is None"
    | none => pure (min, max)
  -- assert min is None or min >= 0
  match min with
  | some n => if n < 0 then throw "assert min is None or min >= 0" else pure ()
  | none => pure ()
  -- assert max is None or max >= 0
  match max with
  | some m => if m < 0 then throw "assert max is None or max >= 0" else pure ()
  | none => pure ()
  -- assert (min is None and max is None) or (min is None or max is None)
  --        or min <= max
  match min, max with
  | some n, some m => if n ≤ m then pure () else throw "assert min <= max"
  | _, _ => pure ()
  return .«repeat» e min max

/-- Python `ZeroOrMore(expression)`: `Repeat(expression)`. -/
def ZeroOrMore (e : Node) : Node := .«repeat» e none none

/-- Python `OneOrMore(expression)`: `Repeat(expression, min=1)`. -/
def OneOrMore (e : Node) : Node := .«repeat» e (some 1) none

/-- Python `Optional(expression)`: `Repeat(expression, min=0, max=1)`. -/
def OptionalRep (e : Node) : Node := .«repeat» e (some 0) (some 1)

/-- First character of the `NAME` pattern: `[a-zA-Z_]`. -/
def isNameStart (cp : Int) : Bool :=
  (65 ≤ cp && cp ≤ 90) || (97 ≤ cp && cp ≤ 122) || cp == 95

/-- Python regex `\w`, restricted to ASCII: `[a-zA-Z0-9_]`.  (For
non-ASCII code points Python's `\w` also matches further Unicode word
characters; this model only covers the ASCII fragment, and the theorems
about `is_name` are restricted to ASCII strings accordingly.) -/
def isAsciiWordChar (cp : Int) : Bool :=
  isNameStart cp || (48 ≤ cp && cp ≤ 57)

/-- A full match of `[a-zA-Z_]\w*` against the whole string. -/
def nameCore : List Int → Bool
  | [] => false
  | c :: rest => isNameStart c && rest.all isAsciiWordChar

/-- Python `is_name`: `bool(NAME.match(string))` where
`NAME = re.compile(r"^[a-zA-Z_]\w*$")`.  Without `re.MULTILINE`, Python's
`$` matches at the end of the string or just before one newline at the
end of the string, so a single trailing `\n` (code point 10) is accepted
after the name body. -/
def is_name (s : List Int) : Bool :=
  nameCore s || (s.getLast? == some 10 && nameCore s.dropLast)

/-- Python `Capture.__init__`: raises `ValueError` when a name is supplied and
`is_name` rejects it. -/
def Capture.init (es : List Node) (name : Option (List Int)) :
    Except String Node :=
  match name with
  | some n =>
      if is_name n then .ok (.capture es (some n))
      else .error "Invalid capture group name"
  | none => .ok (.capture es none)

/-! ### Well-formedness

`Node.wf` captures the invariants established by the validating
constructors (the shapes for which every `__init__` in the tree returned
without raising).  `Node.chr_ok` is the extra side condition that every
set-range code point lies in `chr`'s domain `[0, 0x10FFFF]` — the
condition that the constructors do *not* check but `render` needs. -/

/-- Python `r.start ≤ r.end`: the invariant `SetRange.__init__` establishes. -/
def SetRange.wf (r : SetRange) : Bool := r.start ≤ r.stop

/-- Both code points of the range lie in `chr`'s domain. -/
def SetRange.chr_ok (r : SetRange) : Bool :=
  0 ≤ r.start && r.start ≤ 0x10FFFF && 0 ≤ r.stop && r.stop ≤ 0x10FFFF

mutual

/-- The tree could have been produced by the validating constructors:
capture names satisfy `is_name`, sets are nonempty with ordered ranges,
repeat bounds are non-negative and ordered. -/
def Node.wf : Node → Bool
  | .literal _ => true
  | .sequence es => Node.wf_list es
  | .choice es => Node.wf_list es
  | .capture es name =>
      (match name with | some n => is_name n | none => true) && Node.wf_list es
  | .set ranges => !ranges.isEmpty && ranges.all SetRange.wf
  | .«repeat» e min max =>
      (match min with | some n => decide (0 ≤ n) | none => true) &&
      (match max with | some m => decide (0 ≤ m) | none => true) &&
      (match min, max with | some n, some m => decide (n ≤ m) | _, _ => true) &&
      e.wf
  | .standAlone _ => true
termination_by structural e => e

def Node.wf_list : List Node → Bool
  | [] => true
  | e :: es => e.wf && Node.wf_list es
termination_by structural es => es

end

mutual

/-- Every `SetRange` code point in the tree lies in `chr`'s domain. -/
def Node.chr_ok : Node → Bool
  | .literal _ => true
  | .sequence es => Node.chr_ok_list es
  | .choice es => Node.chr_ok_list es
  | .capture es _ => Node.chr_ok_list es
  | .set ranges => ranges.all SetRange.chr_ok
  | .«repeat» e _ _ => e.chr_ok
  | .standAlone _ => true
termination_by structural e => e

def Node.chr_ok_list : List Node → Bool
  | [] => true
  | e :: es => e.chr_ok && Node.chr_ok_list es
termination_by structural es => es

end

/-! ### The RFC 3986 grammar library (uri_regex.py)

The rule definitions below mirror uri_regex.py line by line, inside the
`rfc3986` namespace (some rule names would otherwise clash with Mathlib).
Helper functions for the constructor forms used there: -/

/-- The ranges of a `Set` node (used where uri_regex.py passes one `Set`
into another `Set(...)` call, which splices its ranges). -/
def Node.setRanges : Node → List SetRange
  | .set rs => rs
  | _ => []

namespace rfc3986

/-- Python `Set(...)` for arguments on which construction succeeds, as at every
call site in uri_regex.py (`rfc_rules_wf` below checks that no error case
is hit, so the `[]` fallback is dead). -/
def mkSet (items : List SetItem) : Node :=
  .set ((Set.init items).toOption.getD [])

/-- Python `*list("...")`: one single-code-point item per character. -/
def sChars (s : String) : List SetItem :=
  (codes s).map .single

/-- Code point of a character literal. -/
def chCode (c : Char) : Int := (c.toNat : Int)

/-- Python `Repeat(e, count=c)`: `min = max = c`. -/
def repCount (e : Node) (c : Int) : Node := .«repeat» e (some c) (some c)

/-- Python `ALPHA = Set(("a", "z"), ("A", "Z"))` -/
def ALPHA : Node := mkSet [.pair (chCode 'a') (chCode 'z'),
                           .pair (chCode 'A') (chCode 'Z')]

/-- Python `DIGIT = Set(("0", "9"))` -/
def DIGIT : Node := mkSet [.pair (chCode '0') (chCode '9')]

/-- Python `HEXDIG = Set(("a", "f"), ("A", "F"), DIGIT)` -/
def HEXDIG : Node := mkSet [.pair (chCode 'a') (chCode 'f'),
                            .pair (chCode 'A') (chCode 'F'),
                            .set DIGIT.setRanges]

/-- Python `sub_delims = Set(*list("!$&'()*+,;="))` (39 is the single quote). -/
def sub_delims : Node :=
  mkSet ([33, 36, 38, 39, 40, 41, 42, 43, 44, 59, 61].map .single)

/-- Python `gen_delims = Set(*list(":/?#[]@"))` -/
def gen_delims : Node := mkSet (sChars ":/?#[]@")

/-- Python `reserved = Set(gen_delims, sub_delims)` -/
def reserved : Node :=
  mkSet [.set gen_delims.setRanges, .set sub_delims.setRanges]

/-- Python `unreserved = Set(ALPHA, DIGIT, *list("-._~"))` -/
def unreserved : Node :=
  mkSet ([.set ALPHA.setRanges, .set DIGIT.setRanges] ++ sChars "-._~")

/-- Python `pct_encoded = Sequence(Literal("%"), Repeat(HEXDIG, count=2))` -/
def pct_encoded : Node :=
  .sequence [.literal (codes "%"), repCount HEXDIG 2]

/-- Python `pchar = Choice(pct_encoded, Set(unreserved, sub_delims, *list(":@")))` -/
def pchar : Node :=
  .choice [pct_encoded,
           mkSet ([.set unreserved.setRanges, .set sub_delims.setRanges]
                  ++ sChars ":@")]

/-- Python `query = ZeroOrMore(Choice(pchar, Set(*list("/?"))))` -/
def query : Node := ZeroOrMore (.choice [pchar, mkSet (sChars "/?")])

/-- Python `fragment = query` -/
def fragment : Node := query

/-- Python `segment_nz_nc = OneOrMore(Choice(pct_encoded,
Set(unreserved, sub_delims, "@")))` -/
def segment_nz_nc : Node :=
  OneOrMore (.choice [pct_encoded,
    mkSet [.set unreserved.setRanges, .set sub_delims.setRanges,
           .single (chCode '@')]])

/-- Python `segment_nz = OneOrMore(pchar)` -/
def segment_nz : Node := OneOrMore pchar

/-- Python `segment = ZeroOrMore(pchar)` -/
def segment : Node := ZeroOrMore pchar

/-- Python `path_empty = Literal("")` -/
def path_empty : Node := .literal []

/-- Python `_zom_segments = ZeroOrMore(Sequence(Literal("/"), segment))` -/
def zom_segments : Node :=
  ZeroOrMore (.sequence [.literal (codes "/"), segment])

/-- Python `path_rootless = Sequence(segment_nz, _zom_segments)` -/
def path_rootless : Node := .sequence [segment_nz, zom_segments]

/-- Python `path_noscheme = Sequence(segment_nz_nc, _zom_segments)` -/
def path_noscheme : Node := .sequence [segment_nz_nc, zom_segments]

/-- Python `path_absolute = Sequence(Literal("/"),
Optional(Sequence(segment_nz, _zom_segments)))` -/
def path_absolute : Node :=
  .sequence [.literal (codes "/"),
             OptionalRep (.sequence [segment_nz, zom_segments])]

/-- Python `path_abempty = _zom_segments` -/
def path_abempty : Node := zom_segments

/-- Python `path = Choice(path_abempty, path_absolute, path_noscheme,
path_rootless, path_empty)` -/
def path : Node :=
  .choice [path_abempty, path_absolute, path_noscheme, path_rootless,
           path_empty]

/-- Python `reg_name = ZeroOrMore(Choice(pct_encoded, Set(unreserved, sub_delims)))` -/
def reg_name : Node :=
  ZeroOrMore (.choice [pct_encoded,
    mkSet [.set unreserved.setRanges, .set sub_delims.setRanges]])

/-- Python `dec_octet` -/
def dec_octet : Node :=
  .choice [DIGIT,
           .sequence [mkSet [.pair 0x31 0x39], DIGIT],
           .sequence [.literal (codes "1"), repCount DIGIT 2],
           .sequence [.literal (codes "2"), mkSet [.pair 0x30 0x34], DIGIT],
           .sequence [.literal (codes "25"), mkSet [.pair 0x30 0x35]]]

/-- Python `ipv4address = Sequence(dec_octet, ".", dec_octet, ".", dec_octet,
".", dec_octet)` -/
def ipv4address : Node :=
  .sequence [dec_octet, .literal (codes "."), dec_octet,
             .literal (codes "."), dec_octet, .literal (codes "."),
             dec_octet]

/-- Python `h16 = Repeat(HEXDIG, min=1, max=4)` -/
def h16 : Node := .«repeat» HEXDIG (some 1) (some 4)

/-- Python `ls32 = Choice(Sequence(h16, Literal(":"), h16), ipv4address)` -/
def ls32 : Node :=
  .choice [.sequence [h16, .literal (codes ":"), h16], ipv4address]

/-- Python `Sequence(h16, Literal(":"))`, the repeated group of `ipv6address`. -/
def h16colon : Node := .sequence [h16, .literal (codes ":")]

/-- Python `ipv6address`: the nine alternatives of RFC 3986. -/
def ipv6address : Node :=
  .choice [
    .sequence [repCount h16colon 6, ls32],
    .sequence [.literal (codes "::"), repCount h16colon 5, ls32],
    .sequence [OptionalRep h16, .literal (codes "::"), repCount h16colon 4,
               ls32],
    .sequence [OptionalRep (.sequence [.«repeat» h16colon none (some 1), h16]),
               .literal (codes "::"), repCount h16colon 3, ls32],
    .sequence [OptionalRep (.sequence [.«repeat» h16colon none (some 2), h16]),
               .literal (codes "::"), repCount h16colon 2, ls32],
    .sequence [OptionalRep (.sequence [.«repeat» h16colon none (some 3), h16]),
               .literal (codes "::"), h16, .literal (codes ":"), ls32],
    .sequence [OptionalRep (.sequence [.«repeat» h16colon none (some 4), h16]),
               .literal (codes "::"), ls32],
    .sequence [OptionalRep (.sequence [.«repeat» h16colon none (some 5), h16]),
               .literal (codes "::"), h16],
    .sequence [OptionalRep (.sequence [.«repeat» h16colon none (some 6), h16]),
               .literal (codes "::")]]

/-- Python `ipvfuture = Sequence("v", OneOrMore(HEXDIG), ".",
OneOrMore(Set(unreserved, sub_delims, ":")))` -/
def ipvfuture : Node :=
  .sequence [.literal (codes "v"), OneOrMore HEXDIG, .literal (codes "."),
             OneOrMore (mkSet [.set unreserved.setRanges,
                               .set sub_delims.setRanges,
                               .single (chCode ':')])]

/-- Python `ip_literal = Sequence("[", Choice(ipv6address, ipvfuture), "]")` -/
def ip_literal : Node :=
  .sequence [.literal (codes "["), .choice [ipv6address, ipvfuture],
             .literal (codes "]")]

/-- Python `port = ZeroOrMore(DIGIT)` -/
def port : Node := ZeroOrMore DIGIT

/-- Python `host = Choice(ip_literal, ipv4address, reg_name)` -/
def host : Node := .choice [ip_literal, ipv4address, reg_name]

/-- Python `userinfo = ZeroOrMore(Choice(pct_encoded,
Set(unreserved, sub_delims, ":")))` -/
def userinfo : Node :=
  ZeroOrMore (.choice [pct_encoded,
    mkSet [.set unreserved.setRanges, .set sub_delims.setRanges,
           .single (chCode ':')]])

/-- Python `authority = Sequence(Optional(Sequence(userinfo, "@")), host,
Optional(Sequence(":", port)))` -/
def authority : Node :=
  .sequence [OptionalRep (.sequence [userinfo, .literal (codes "@")]),
             host,
             OptionalRep (.sequence [.literal (codes ":"), port])]

/-- Python `scheme = Sequence(ALPHA, ZeroOrMore(Set(ALPHA, DIGIT, *list("+-."))))` -/
def scheme : Node :=
  .sequence [ALPHA,
             ZeroOrMore (mkSet ([.set ALPHA.setRanges, .set DIGIT.setRanges]
                                ++ sChars "+-."))]

/-- Python `relative_part` -/
def relative_part : Node :=
  .choice [.sequence [.literal (codes "//"), authority, path_abempty],
           path_absolute, path_noscheme, path_empty]

/-- Python `relative_ref = Sequence(relative_part, Optional(Sequence("?", query)),
Optional(Sequence("#", fragment)))` -/
def relative_ref : Node :=
  .sequence [relative_part,
             OptionalRep (.sequence [.literal (codes "?"), query]),
             OptionalRep (.sequence [.literal (codes "#"), fragment])]

/-- Python `hier_part` -/
def hier_part : Node :=
  .choice [.sequence [.literal (codes "//"), authority, path_abempty],
           path_absolute, path_rootless, path_empty]

/-- Python `absolute_uri = Sequence(scheme, ":", hier_part,
Optional(Sequence("?", query)))` -/
def absolute_uri : Node :=
  .sequence [scheme, .literal (codes ":"), hier_part,
             OptionalRep (.sequence [.literal (codes "?"), query])]

/-- Python `uri = Sequence(scheme, ":", hier_part, Optional(Sequence("?", query)),
Optional(Sequence("#", fragment)))` -/
def uri : Node :=
  .sequence [scheme, .literal (codes ":"), hier_part,
             OptionalRep (.sequence [.literal (codes "?"), query]),
             OptionalRep (.sequence [.literal (codes "#"), fragment])]

/-- Python `uri_reference = Choice(uri, relative_ref)` -/
def uri_reference : Node := .choice [uri, relative_ref]

/-- Python `_rfc_names`: the rule table, in source order. -/
def rfcTable : List (String × Node) :=
  [("URI", uri),
   ("hier-part", hier_part),
   ("URI-reference", uri_reference),
   ("absolute-URI", absolute_uri),
   ("relative-ref", relative_ref),
   ("relative-part", relative_part),
   ("scheme", scheme),
   ("authority", authority),
   ("userinfo", userinfo),
   ("host", host),
   ("port", port),
   ("IP-literal", ip_literal),
   ("IPvFuture", ipvfuture),
   ("IPv6address", ipv6address),
   ("h16", h16),
   ("ls32", ls32),
   ("IPv4address", ipv4address),
   ("dec-octet", dec_octet),
   ("reg-name", reg_name),
   ("path", path),
   ("path-abempty", path_abempty),
   ("path-absolute", path_absolute),
   ("path-noscheme", path_noscheme),
   ("path-rootless", path_rootless),
   ("path-empty", path_empty),
   ("segment", segment),
   ("segment-nz", segment_nz),
   ("segment-nz-nc", segment_nz_nc),
   ("pchar", pchar),
   ("query", query),
   ("fragment", fragment),
   ("pct-encoded", pct_encoded),
   ("unreserved", unreserved),
   ("reserved", reserved),
   ("gen-delims", gen_delims),
   ("sub-delims", sub_delims),
   ("HEXDIG", HEXDIG),
   ("ALPHA", ALPHA),
   ("DIGIT", DIGIT)]

/-- Python `_rfc_names[rule_name]` as an association-list lookup. -/
def lookupRule (name : String) : Option Node :=
  (rfcTable.find? (fun p => p.1 == name)).map (fun p => p.2)

/-- Python `Start()` / `End()`. -/
def startNode : Node := .standAlone (codes "^")
def endNode : Node := .standAlone (codes "$")

/-- Python `get_regex`: raise `ValueError("Unknown rule name: ...")` for a name
outside the table; otherwise compile `Sequence(Start(), rule, End())`.
Compilation is modelled by the rendered pattern itself; the `none` branch
of `render` (a `chr` `ValueError`) is never hit by table rules. -/
def get_regex (name : String) : Except String (List Int) :=
  match lookupRule name with
  | none => .error ("Unknown rule name: " ++ name)
  | some rule =>
      match Node.render (.sequence [startNode, rule, endNode]) with
      | some s => .ok s
      | none => .error "ValueError from chr"

end rfc3986

/-- The identifier grammar as the specification's claim states it: first
character a letter or underscore, remaining characters ASCII
alphanumerics or underscores.  (Stated from the spec's words, for
comparison with `is_name`, which is translated from the code.) -/
def specIdentifier : List Int → Bool
  | [] => false
  | c :: rest => isNameStart c && rest.all isAsciiWordChar

/-! ### Theorems -/

/-- Python `render_singular` is `render` post-processed by `wrapSingular`. -/
theorem Node.render_singular_eq (e : Node) :
    e.render_singular = e.render.map (wrapSingular e.is_singular) := by
  cases h : e.render <;> simp [Node.render_singular, h]

/-- Python `render_non_expansive` in terms of `render`. -/
theorem Node.render_non_expansive_eq (e : Node) :
    e.render_non_expansive
      = e.render.map (fun r =>
          if e.is_expansive then wrapSingular e.is_singular r else r) := by
  by_cases he : e.is_expansive <;>
    cases h : e.render <;>
      simp [Node.render_non_expansive, Node.render_singular, he, h]

/-- Python `Repeat.render` is `render_singular` of the child plus the operator. -/
theorem Node.render_repeat_eq (e : Node) (mn mx : Option Int) :
    (Node.«repeat» e mn mx).render
      = e.render_singular.map (fun s => s ++ repOperator mn mx) := by
  cases h : e.render <;> simp [Node.render, Node.render_singular, h]

/-- Python `render_each` consumes one `render_non_expansive` at a time. -/
theorem Node.render_each_cons (e : Node) (es : List Node) :
    Node.render_each (e :: es)
      = do return (← e.render_non_expansive) :: (← Node.render_each es) := by
  rw [Node.render_non_expansive_eq]
  cases h : e.render <;> simp [Node.render_each, h]

/-- Python `render_char` succeeds on every code point in `chr`'s domain. -/
theorem SetRange.render_char_total (cp : Int) (f : Bool)
    (h0 : 0 ≤ cp) (h1 : cp ≤ 0x10FFFF) :
    ∃ s, SetRange.render_char cp f = some s := by
  unfold SetRange.render_char pychr
  rw [if_pos ⟨h0, h1⟩]
  by_cases h : SetRange.needs_escape cp f <;> simp [h]

/-- Python `SetRange.render` succeeds whenever both ends are in `chr`'s domain. -/
theorem SetRange.render_some (r : SetRange) (f : Bool)
    (h : r.chr_ok = true) : ∃ s, r.render f = some s := by
  simp only [SetRange.chr_ok, Bool.and_eq_true, decide_eq_true_eq] at h
  obtain ⟨⟨⟨h1, h2⟩, h3⟩, h4⟩ := h
  obtain ⟨s1, hs1⟩ := SetRange.render_char_total r.start f h1 h2
  obtain ⟨s2, hs2⟩ := SetRange.render_char_total r.stop false h3 h4
  unfold SetRange.render
  by_cases h : r.is_single <;> simp [h, hs1, hs2]

/-- Python `renderRanges` succeeds whenever every range is in `chr`'s domain. -/
theorem renderRanges_total (rs : List SetRange) (pos : Nat)
    (h : rs.all SetRange.chr_ok = true) :
    ∃ s, renderRanges pos rs = some s := by
  induction rs generalizing pos with
  | nil => exact ⟨[], rfl⟩
  | cons r rest ih =>
      simp only [List.all_cons, Bool.and_eq_true] at h
      obtain ⟨s1, hs1⟩ := SetRange.render_some r (pos == 0) h.1
      obtain ⟨s2, hs2⟩ := ih (pos + 1) h.2
      exact ⟨s1 ++ s2, by simp [renderRanges, hs1, hs2]⟩

/-- Python `render` succeeds on every tree whose set-range code points are in
`chr`'s domain (whether or not the tree is otherwise well-formed). -/
theorem Node.render_total (e : Node) (h : e.chr_ok = true) :
    ∃ s, e.render = some s := by
  refine Node.render.induct
    (fun a => a.chr_ok = true → ∃ s, a.render = some s)
    (fun es => Node.chr_ok_list es = true → ∃ l, Node.render_each es = some l)
    ?_ ?_ ?_ ?_ ?_ ?_ ?_ ?_ ?_ e h
  · exact fun text _ => ⟨literalRender text, rfl⟩
  · intro es ih h
    obtain ⟨l, hl⟩ := ih (by simpa [Node.chr_ok] using h)
    simp [Node.render, hl]
  · intro es ih h
    obtain ⟨l, hl⟩ := ih (by simpa [Node.chr_ok] using h)
    simp [Node.render, hl]
  · intro es name ih h
    obtain ⟨l, hl⟩ := ih (by simpa [Node.chr_ok] using h)
    cases name <;> simp [Node.render, hl]
  · intro ranges h
    obtain ⟨s, hs⟩ := renderRanges_total ranges 0
      (by simpa [Node.chr_ok] using h)
    simp [Node.render, hs]
  · intro e min max ih h
    obtain ⟨s, hs⟩ := ih (by simpa [Node.chr_ok] using h)
    simp [Node.render, hs]
  · exact fun r _ => ⟨r, rfl⟩
  · exact fun _ => ⟨[], rfl⟩
  · intro e es ihe ihes hh
    simp only [Node.chr_ok_list, Bool.and_eq_true] at hh
    obtain ⟨s, hs⟩ := ihe hh.1
    obtain ⟨l, hl⟩ := ihes hh.2
    simp [Node.render_each, hs, hl]

/-- Every rule in the table is well-formed and within `chr`'s domain. -/
theorem rfc_rules_wf :
    rfc3986.rfcTable.all (fun p => p.2.wf && p.2.chr_ok) = true := by decide

example : Node.render (.literal (codes "a.b")) = some (codes "a\\.b") := by decide

example :
    Node.render (.«repeat» (.sequence [.literal (codes "ab")]) (some 2) (some 4))
      = some (codes "(?:ab)\x7b2,4\x7d") := by decide

/-- Python `Sequence(Start(), rule, End())` renders as `^`, the rule rendered
non-expansively, then `$`. -/
theorem render_anchored (rule : Node) (s : List Int)
    (h : rule.render_non_expansive = some s) :
    (Node.sequence [rfc3986.startNode, rule, rfc3986.endNode]).render
      = some (codes "^" ++ s ++ codes "$") := by
  have h1 : (rfc3986.startNode : Node).render_non_expansive
      = some (codes "^") := by decide
  have hend : Node.render_each [rfc3986.endNode] = some [codes "$"] := by
    decide
  have hmid : Node.render_each [rule, rfc3986.endNode]
      = some [s, codes "$"] := by
    rw [Node.render_each_cons, h, hend]; rfl
  have hall :
      Node.render_each [rfc3986.startNode, rule, rfc3986.endNode]
        = some [codes "^", s, codes "$"] := by
    rw [Node.render_each_cons, h1, hmid]; rfl
  simp [Node.render, hall, joinCodes, codes]

/-- Any rule `lookupRule` returns is well-formed and in `chr`'s domain. -/
theorem lookupRule_wf (name : String) (rule : Node)
    (h : rfc3986.lookupRule name = some rule) :
    rule.wf = true ∧ rule.chr_ok = true := by
  unfold rfc3986.lookupRule at h
  obtain ⟨p, hp, hval⟩ := Option.map_eq_some'.mp h
  subst hval
  have hmem := List.mem_of_find?_eq_some hp
  have hall := List.all_eq_true.mp rfc_rules_wf p hmem
  simpa [Bool.and_eq_true] using hall

/-- The spec's identifier grammar is the `[a-zA-Z_]\w*` body of `NAME`
(on ASCII strings, where the model of `\w` is exact). -/
theorem specIdentifier_eq_nameCore (s : List Int) :
    specIdentifier s = nameCore s := by
  cases s <;> rfl

/-- C1 counterexample: `Choice(Literal("ab"))` has exactly one
alternative, yet `is_expansive()` returns true (the code tests
`not is_singular()`, and a single non-singular alternative is enough),
contradicting "true only when the node is a Choice with more than one
alternative". -/
theorem C1_counterexample :
    Node.is_expansive (.choice [.literal (codes "ab")]) = true ∧
    [Node.literal (codes "ab")].length = 1 := by decide

/-- C1 (amended): `is_expansive()` returns true exactly for `Choice`
nodes that are not singular (every other variant, and any singular
Choice, returns false), and `render_non_expansive()` returns
`render_singular()` exactly when `is_expansive()` is true and `render()`
otherwise. -/
theorem C1_is_expansive_characterisation (e : Node) :
    (e.is_expansive = true ↔
      (∃ es, e = .choice es) ∧ e.is_singular = false) ∧
    e.render_non_expansive
      = (if e.is_expansive then e.render_singular else e.render) := by
  refine ⟨?_, rfl⟩
  cases e <;> simp [Node.is_expansive, Node.is_singular]

/-- C2: a `Repeat` renders as `render_singular()` of the child followed
by the postfix operator; the operator cases resolve as the claim lists
them, and `Repeat(Sequence(Literal("ab")), min=2, max=4)` renders as
`(?:ab){2,4}`. -/
theorem C2_repeat_operator :
    (∀ (e : Node) (mn mx : Option Int),
        (Node.«repeat» e mn mx).render
          = e.render_singular.map (fun s => s ++ repOperator mn mx)) ∧
    repOperator none none = codes "*" ∧
    repOperator (some 1) none = codes "+" ∧
    repOperator (some 0) (some 1) = codes "?" ∧
    (∀ n : Int, repOperator (some n) (some n)
        = codes "\x7b" ++ intDecimal n ++ codes "\x7d") ∧
    (∀ m : Int, repOperator none (some m)
        = codes "\x7b," ++ intDecimal m ++ codes "\x7d") ∧
    (∀ n : Int, n ≠ 1 → repOperator (some n) none
        = codes "\x7b" ++ intDecimal n ++ codes ",\x7d") ∧
    (∀ n m : Int, n ≠ m → ¬(n = 0 ∧ m = 1) →
        repOperator (some n) (some m)
          = codes "\x7b" ++ intDecimal n ++ codes ","
              ++ intDecimal m ++ codes "\x7d") ∧
    Node.render (.«repeat» (.sequence [.literal (codes "ab")])
        (some 2) (some 4))
      = some (codes "(?:ab)\x7b2,4\x7d") := by
  refine ⟨Node.render_repeat_eq, rfl, rfl, rfl, ?_, ?_, ?_, ?_, by decide⟩
  · intro n
    unfold repOperator
    rw [if_neg (by simp), if_neg (by simp),
        if_neg (by rintro ⟨h0, h1⟩; simp at h0 h1; omega), if_pos rfl]
  · intro m
    unfold repOperator
    rw [if_neg (by simp), if_neg (by simp), if_neg (by simp),
        if_neg (by simp), if_pos rfl]
  · intro n hn
    unfold repOperator
    rw [if_neg (by simp), if_neg (by simp [hn]), if_neg (by simp),
        if_neg (by simp), if_neg (by simp), if_pos rfl]
  · intro n m hnm hnot
    unfold repOperator
    rw [if_neg (by simp), if_neg (by simp),
        if_neg (by rintro ⟨h0, h1⟩; simp at h0 h1; exact hnot ⟨h0, h1⟩),
        if_neg (by simp [hnm]), if_neg (by simp), if_neg (by simp)]

/-- C2 witness: the `{N,}` and `{N,M}` cases at (2, _) and (2, 4). -/
theorem C2_witness :
    repOperator (some 2) none = codes "\x7b" ++ intDecimal 2 ++ codes ",\x7d" ∧
    repOperator (some 2) (some 4)
      = codes "\x7b" ++ intDecimal 2 ++ codes ","
          ++ intDecimal 4 ++ codes "\x7d" :=
  ⟨C2_repeat_operator.2.2.2.2.2.2.1 2 (by decide),
   C2_repeat_operator.2.2.2.2.2.2.2.1 2 4 (by decide) (by decide)⟩

/-- C3: `render_singular()` is `render()` unchanged when `is_singular()`
holds and `render()` wrapped in `(?:...)` otherwise. -/
theorem C3_render_singular (e : Node) (r : List Int)
    (h : e.render = some r) :
    e.render_singular
      = some (if e.is_singular then r
              else codes "(?:" ++ r ++ codes ")") ∧
    (e.is_singular = true → e.render_singular = e.render) := by
  constructor
  · rw [Node.render_singular_eq, h]
    by_cases hs : e.is_singular <;> simp [wrapSingular, hs]
  · intro hs
    rw [Node.render_singular_eq, h]
    simp [wrapSingular, hs]

/-- C3 witness: `Literal("ab")` is not singular, so it gets wrapped. -/
theorem C3_witness :
    (Node.literal (codes "ab")).render_singular
      = some (if (Node.literal (codes "ab")).is_singular then codes "ab"
              else codes "(?:" ++ codes "ab" ++ codes ")") :=
  (C3_render_singular (.literal (codes "ab")) (codes "ab") (by decide)).1

/-- C4 counterexample: `Set(0x110000)` constructs without error
(`SetRange.__init__` only checks `end < start`), yet rendering it fails,
because `chr(0x110000)` raises `ValueError` — so render is *not* total
on all successfully constructed trees. -/
theorem C4_counterexample :
    Set.init [SetItem.single 1114112]
        = Except.ok [SetRange.mk 1114112 1114112] ∧
    Node.render (.set [SetRange.mk 1114112 1114112]) = none :=
  ⟨rfl, by decide⟩

/-- C4 (amended): rendering is total on every successfully constructed
tree all of whose set-range code points lie in `chr`'s domain
`[0, 0x10FFFF]`. -/
theorem C4_render_total_on_valid_codepoints (e : Node)
    (hwf : e.wf = true) (hchr : e.chr_ok = true) :
    ∃ s, e.render = some s :=
  Node.render_total e hchr

/-- C4 witness: a well-formed one-range set renders. -/
theorem C4_witness :
    ∃ s, Node.render (.set [SetRange.mk 97 122]) = some s :=
  C4_render_total_on_valid_codepoints (.set [SetRange.mk 97 122])
    (by decide) (by decide)

/-- C5: a `Set` renders as its ranges in order wrapped in `[...]`; a
class-member character is rendered with a backslash iff it is `^` in
first position or one of `\`, `]`, `-` in any position; concrete checks:
a leading `^` is escaped, a later `^` is not, and `\`, `]`, `-` are
escaped in non-first positions. -/
theorem C5_set_rendering :
    (∀ (ranges : List SetRange) (s : List Int),
        renderRanges 0 ranges = some s →
        Node.render (.set ranges) = some (codes "[" ++ s ++ codes "]")) ∧
    (∀ (cp : Int) (first : Bool), 0 ≤ cp → cp ≤ 0x10FFFF →
        (SetRange.render_char cp first = some [92, cp] ↔
          ((first = true ∧ cp = 94) ∨ cp ∈ ([92, 93, 45] : List Int))) ∧
        (¬((first = true ∧ cp = 94) ∨ cp ∈ ([92, 93, 45] : List Int)) →
          SetRange.render_char cp first = some [cp])) ∧
    Node.render (.set [⟨94, 94⟩, ⟨97, 97⟩]) = some (codes "[\\^a]") ∧
    Node.render (.set [⟨97, 97⟩, ⟨94, 94⟩]) = some (codes "[a^]") ∧
    Node.render (.set [⟨97, 97⟩, ⟨45, 45⟩, ⟨93, 93⟩, ⟨92, 92⟩])
      = some (codes "[a\\-\\]\\\\]") := by
  refine ⟨?_, ?_, by decide, by decide, by decide⟩
  · intro ranges s h
    simp [Node.render, h]
  · intro cp first h0 h1
    have hcond : SetRange.needs_escape cp first = true ↔
        ((first = true ∧ cp = 94) ∨ cp ∈ ([92, 93, 45] : List Int)) := by
      simp [SetRange.needs_escape, Bool.and_eq_true, Bool.or_eq_true]
    constructor
    · by_cases hc : (first = true ∧ cp = 94) ∨ cp ∈ ([92, 93, 45] : List Int)
      · have hesc : reEscapeChar cp = [92, cp] := by
          have : reSpecial cp = true := by
            rcases hc with ⟨_, rfl⟩ | hm
            · decide
            · simp only [List.mem_cons, List.not_mem_nil, or_false] at hm
              rcases hm with rfl | rfl | rfl <;> decide
          simp [reEscapeChar, this]
        constructor
        · exact fun _ => hc
        · intro _
          unfold SetRange.render_char pychr
          rw [if_pos ⟨h0, h1⟩]
          simp [hcond.mpr hc, hesc]
      · have hne : SetRange.needs_escape cp first = false := by
          rw [← Bool.not_eq_true, hcond]; exact hc
        constructor
        · intro heq
          unfold SetRange.render_char pychr at heq
          rw [if_pos ⟨h0, h1⟩] at heq
          simp [hne] at heq
        · intro hc2
          exact absurd hc2 (by simpa using hc)
    · intro hc
      have hne : SetRange.needs_escape cp first = false := by
        rw [← Bool.not_eq_true, hcond]; exact hc
      unfold SetRange.render_char pychr
      rw [if_pos ⟨h0, h1⟩]
      simp [hne]

/-- C5 witness: the bracket wrapping at `[a]`, and the escape of a
first-position `^`. -/
theorem C5_witness :
    Node.render (.set [⟨97, 97⟩]) = some (codes "[" ++ codes "a" ++ codes "]") ∧
    SetRange.render_char 94 true = some [92, 94] :=
  ⟨C5_set_rendering.1 [⟨97, 97⟩] (codes "a") (by decide),
   (C5_set_rendering.2.1 94 true (by decide) (by decide)).1.mpr
     (Or.inl ⟨rfl, rfl⟩)⟩

/-- C6 counterexample: `Capture(..., name="foo\n")` constructs without
raising, although `"foo\n"` does not match the claimed identifier
grammar: `NAME.match` uses `$`, which (without `re.MULTILINE`) also
matches just before a single newline at the end of the string. -/
theorem C6_counterexample :
    Capture.init [.literal (codes "lol")] (some (codes "foo\n"))
        = .ok (.capture [.literal (codes "lol")] (some (codes "foo\n"))) ∧
    specIdentifier (codes "foo\n") = false :=
  ⟨rfl, by decide⟩

/-- C6 (amended): for an all-ASCII name, `Capture` construction raises
iff the name neither matches the identifier grammar nor is such a match
followed by exactly one trailing newline; `name=None` never raises; and
`Capture(node, name="foo-bar")` raises. -/
theorem C6_capture_name_validation (es : List Node) (name : List Int)
    (hascii : name.all (fun c => c < 128) = true) :
    ((∃ msg, Capture.init es (some name) = .error msg) ↔
        ¬(specIdentifier name = true ∨
          (name.getLast? = some 10 ∧ specIdentifier name.dropLast = true))) ∧
    Capture.init es none = .ok (.capture es none) ∧
    (∃ msg, Capture.init es (some (codes "foo-bar")) = .error msg) := by
  have hiff : is_name name = true ↔
      (nameCore name = true ∨
        (name.getLast? = some 10 ∧ nameCore name.dropLast = true)) := by
    simp [is_name, Bool.or_eq_true, Bool.and_eq_true, beq_iff_eq]
  refine ⟨?_, rfl, ?_⟩
  · rw [specIdentifier_eq_nameCore, specIdentifier_eq_nameCore]
    by_cases h : is_name name
    · simp only [Capture.init, if_pos h]
      simp only [not_or, not_and]
      constructor
      · rintro ⟨msg, hmsg⟩
        exact absurd hmsg (by simp)
      · intro hno
        exact absurd (hiff.mp h) (by tauto)
    · simp only [Capture.init, if_neg h]
      constructor
      · intro _ hab
        exact h (hiff.mpr hab)
      · intro _
        exact ⟨_, rfl⟩
  · have hfb : is_name (codes "foo-bar") = false := by decide
    exact ⟨"Invalid capture group name", by simp [Capture.init, hfb]⟩

/-- C6 witness: instantiated at the ASCII name `"q2"`. -/
theorem C6_witness :
    ((∃ msg, Capture.init [] (some (codes "q2")) = .error msg) ↔
        ¬(specIdentifier (codes "q2") = true ∨
          ((codes "q2").getLast? = some 10 ∧
            specIdentifier (codes "q2").dropLast = true))) ∧
    Capture.init [] none = .ok (.capture [] none) ∧
    (∃ msg, Capture.init [] (some (codes "foo-bar")) = .error msg) :=
  C6_capture_name_validation [] (codes "q2") (by decide)

/-- C7: the invalid construction shapes raise exactly as claimed —
`Set()` with no arguments, `SetRange` with `end < start`, `Repeat` with
`min > max` or with `count` combined with `min`/`max` — while the
corresponding valid shapes construct successfully. -/
theorem C7_construction_errors :
    (∃ msg, Set.init [] = .error msg) ∧
    (∀ s e : Int, e < s → ∃ msg, SetRange.init s e = .error msg) ∧
    (∀ s e : Int, s ≤ e → SetRange.init s e = .ok ⟨s, e⟩) ∧
    (∀ (node : Node) (n m : Int), 0 ≤ n → 0 ≤ m → m < n →
        ∃ msg, Repeat.init node (some n) (some m) none = .error msg) ∧
    (∀ (node : Node) (c : Int) (mn mx : Option Int),
        mn ≠ none ∨ mx ≠ none →
        ∃ msg, Repeat.init node mn mx (some c) = .error msg) ∧
    (∀ (node : Node) (n m : Int), 0 ≤ n → n ≤ m →
        Repeat.init node (some n) (some m) none
          = .ok (.«repeat» node (some n) (some m))) ∧
    (∀ (node : Node) (c : Int), 0 ≤ c →
        Repeat.init node none none (some c)
          = .ok (.«repeat» node (some c) (some c))) ∧
    (∀ cp : Int, Set.init [.single cp] = .ok [⟨cp, cp⟩]) := by
  refine ⟨⟨"empty Set()", rfl⟩, ?_, ?_, ?_, ?_, ?_, ?_, ?_⟩
  · intro s e h
    exact ⟨"end < start", by simp [SetRange.init, h]⟩
  · intro s e h
    simp [SetRange.init, not_lt.mpr h]
  · intro node n m hn hm hlt
    refine ⟨"assert min <= max", ?_⟩
    simp [Repeat.init, not_lt.mpr hn, not_lt.mpr hm, not_le.mpr hlt]
    rfl
  · intro node c mn mx hor
    have hcond : ¬(mn = none ∧ mx = none) := by
      rcases hor with h | h <;> simp_all
    refine ⟨"assert min is None and max is None", ?_⟩
    simp only [Repeat.init]
    simp [hcond]
    rfl
  · intro node n m hn hnm
    simp [Repeat.init, not_lt.mpr hn, not_lt.mpr (hn.trans hnm), hnm]
    rfl
  · intro node c hc
    simp [Repeat.init, not_lt.mpr hc]
    rfl
  · intro cp
    have hcc : ¬(cp < cp) := lt_irrefl cp
    have hc : SetRange.create (SetItem.single cp) = .ok ⟨cp, cp⟩ := by
      simp [SetRange.create, SetRange.init, hcc]
    simp [Set.init, List.mapM.loop, hc]
    simp [Set.init.itemRanges]

/-- C7 witness: the spec's own failure examples — `SetRange(20, 10)`,
`Repeat(node, min=5, max=2)`, `count` mixed with `min` — plus the valid
counterparts. -/
theorem C7_witness :
    (∃ msg, SetRange.init 20 10 = .error msg) ∧
    SetRange.init 10 20 = .ok ⟨10, 20⟩ ∧
    (∃ msg, Repeat.init (.literal (codes "a")) (some 5) (some 2) none
        = .error msg) ∧
    (∃ msg, Repeat.init (.literal (codes "a")) (some 1) none (some 2)
        = .error msg) ∧
    Repeat.init (.literal (codes "a")) (some 2) (some 4) none
      = .ok (.«repeat» (.literal (codes "a")) (some 2) (some 4)) ∧
    Repeat.init (.literal (codes "a")) none none (some 2)
      = .ok (.«repeat» (.literal (codes "a")) (some 2) (some 2)) ∧
    Set.init [.single 97] = .ok [⟨97, 97⟩] :=
  ⟨C7_construction_errors.2.1 20 10 (by decide),
   C7_construction_errors.2.2.1 10 20 (by decide),
   C7_construction_errors.2.2.2.1 (.literal (codes "a")) 5 2
     (by decide) (by decide) (by decide),
   C7_construction_errors.2.2.2.2.1 (.literal (codes "a")) 2
     (some 1) none (Or.inl (by decide)),
   C7_construction_errors.2.2.2.2.2.1 (.literal (codes "a")) 2 4
     (by decide) (by decide),
   C7_construction_errors.2.2.2.2.2.2.1 (.literal (codes "a")) 2
     (by decide),
   C7_construction_errors.2.2.2.2.2.2.2 97⟩

/-- C9: a `Sequence`/`Choice` is singular iff it has exactly one child
and that child is singular; a single singular child means
`render_singular` adds no group, and two or more children are never
singular. -/
theorem C9_single_child_singular (es : List Node) :
    (Node.is_singular (.sequence es) = true ↔
        ∃ e, es = [e] ∧ e.is_singular = true) ∧
    (Node.is_singular (.choice es) = true ↔
        ∃ e, es = [e] ∧ e.is_singular = true) ∧
    (∀ e : Node, es = [e] → e.is_singular = true →
        Node.render_singular (.sequence es) = Node.render (.sequence es) ∧
        Node.render_singular (.choice es) = Node.render (.choice es)) ∧
    (2 ≤ es.length →
        Node.is_singular (.sequence es) = false ∧
        Node.is_singular (.choice es) = false) := by
  refine ⟨?_, ?_, ?_, ?_⟩
  · rcases es with _ | ⟨e, _ | ⟨f, rest⟩⟩ <;>
      simp [Node.is_singular, Node.seq_is_singular]
  · rcases es with _ | ⟨e, _ | ⟨f, rest⟩⟩ <;>
      simp [Node.is_singular, Node.seq_is_singular]
  · rintro e rfl hsing
    have hs1 : Node.is_singular (.sequence [e]) = true := by
      simp [Node.is_singular, Node.seq_is_singular, hsing]
    have hs2 : Node.is_singular (.choice [e]) = true := by
      simp [Node.is_singular, Node.seq_is_singular, hsing]
    constructor
    · cases hr : (Node.sequence [e]).render <;>
        simp [Node.render_singular_eq, hs1, wrapSingular, hr]
    · cases hr : (Node.choice [e]).render <;>
        simp [Node.render_singular_eq, hs2, wrapSingular, hr]
  · intro hlen
    rcases es with _ | ⟨e, _ | ⟨f, rest⟩⟩
    · simp at hlen
    · simp at hlen
    · simp [Node.is_singular, Node.seq_is_singular]

/-- C9 witness: a one-child sequence around a (singular) `Set` needs no
group; a two-child sequence is not singular. -/
theorem C9_witness :
    Node.render_singular (.sequence [Node.set [⟨97, 97⟩]])
        = Node.render (.sequence [Node.set [⟨97, 97⟩]]) ∧
    Node.is_singular (.sequence [Node.set [⟨97, 97⟩],
        Node.set [⟨98, 98⟩]]) = false :=
  ⟨((C9_single_child_singular [Node.set [⟨97, 97⟩]]).2.2.1
      (Node.set [⟨97, 97⟩]) rfl (by decide)).1,
   ((C9_single_child_singular [Node.set [⟨97, 97⟩],
       Node.set [⟨98, 98⟩]]).2.2.2 (by decide)).1⟩

/-- Python `Set.__init__` on a nonempty argument list: the created non-`Set`
ranges followed by the spliced `Set` ranges. -/
theorem Set.init_cons_eq (i : SetItem) (rest : List SetItem) :
    Set.init (i :: rest)
      = (fun a => a ++ ((i :: rest).filterMap Set.init.itemRanges).flatten)
          <$> ((i :: rest).filter (fun x => !Set.init.isSet x)).mapM
                SetRange.create := rfl

/-- C10: `Set.__init__` puts the ranges created from all non-`Set`
arguments (in argument order) before the ranges spliced from all `Set`
arguments (in argument order); concretely, `Set(Set("x"), "^")` holds the
`^` range first and therefore escapes the caret when rendering. -/
theorem C10_set_argument_reordering :
    (∀ (items : List SetItem) (ranges created : List SetRange),
        (items.filter (fun i => !Set.init.isSet i)).mapM SetRange.create
            = .ok created →
        Set.init items = .ok ranges →
        ranges = created
            ++ (items.filterMap Set.init.itemRanges).flatten) ∧
    Set.init [.set [⟨120, 120⟩], .single 94] = .ok [⟨94, 94⟩, ⟨120, 120⟩] ∧
    Node.render (.set [⟨94, 94⟩, ⟨120, 120⟩]) = some (codes "[\\^x]") := by
  refine ⟨?_, rfl, by decide⟩
  intro items ranges created hmap hinit
  rcases items with _ | ⟨i, rest⟩
  · have h0 : (Except.error "empty Set()" : Except String (List SetRange))
        = Except.ok ranges := hinit
    exact Except.noConfusion h0
  · rw [Set.init_cons_eq, hmap] at hinit
    simp at hinit
    exact hinit.symm

/-- C10 witness: the reordering equation at `Set(Set("x"), "^")`. -/
theorem C10_witness :
    ([⟨94, 94⟩, ⟨120, 120⟩] : List SetRange)
      = [⟨94, 94⟩]
        ++ (([SetItem.set [⟨120, 120⟩], SetItem.single 94]).filterMap
              Set.init.itemRanges).flatten :=
  C10_set_argument_reordering.1
    [SetItem.set [⟨120, 120⟩], SetItem.single 94]
    [⟨94, 94⟩, ⟨120, 120⟩] [⟨94, 94⟩] rfl rfl

/-- C8: for every name in the rule table, `get_regex` returns the rule
rendered non-expansively between `^` and `$` anchors; for every other
name it raises a `ValueError` whose message contains the offending
name. -/
theorem C8_get_regex :
    (∀ (name : String) (rule : Node),
        rfc3986.lookupRule name = some rule →
        ∃ s, rule.render_non_expansive = some s ∧
          rfc3986.get_regex name = .ok (codes "^" ++ s ++ codes "$")) ∧
    (∀ name : String, rfc3986.lookupRule name = none →
        rfc3986.get_regex name
          = .error ("Unknown rule name: " ++ name)) := by
  constructor
  · intro name rule hlook
    obtain ⟨hwf, hchr⟩ := lookupRule_wf name rule hlook
    obtain ⟨r, hr⟩ := Node.render_total rule hchr
    have hrne : rule.render_non_expansive
        = some (if rule.is_expansive then wrapSingular rule.is_singular r
                else r) := by
      rw [Node.render_non_expansive_eq, hr]
      rfl
    refine ⟨_, hrne, ?_⟩
    have hanch := render_anchored rule _ hrne
    simp [rfc3986.get_regex, hlook, hanch]
  · intro name hlook
    simp [rfc3986.get_regex, hlook]

/-- C8 witness: the table rule `"URI"` and the unknown name `"bogus"`. -/
theorem C8_witness :
    (∃ s, rfc3986.uri.render_non_expansive = some s ∧
        rfc3986.get_regex "URI" = .ok (codes "^" ++ s ++ codes "$")) ∧
    rfc3986.get_regex "bogus"
      = .error ("Unknown rule name: " ++ "bogus") :=
  ⟨C8_get_regex.1 "URI" rfc3986.uri rfl, C8_get_regex.2 "bogus" rfl⟩
